import Mathlib

/-!
Shallow embedding of the log-decoding / pool-registry core of the `eth-mev`
repository (crates/dex-indexer), together with theorems settling the frozen
claims about it.  Machine integers are modelled as `Nat`/`Int` with explicit
reductions where overflow matters; Rust panics (out-of-bounds indexing) are
modelled as a dedicated error constructor distinct from returned errors;
network reads (`decimals()`, `token0()`, `token1()`) are modelled as oracle
parameters standing for the contract-call collaborator.
-/

set_option maxRecDepth 40000

deriving instance DecidableEq for Except

namespace EthMev

/-- 20-byte account/contract address, modelled as its list of bytes
(each entry intended `< 256`). -/
abbrev Address := List Nat

/-- 32-byte hash (log topic), modelled as its list of bytes. -/
abbrev H256 := List Nat

/-- `UNISWAP_V2_SWAP_TOPIC` from `types.rs` lines 11-14, byte for byte. -/
def UNISWAP_V2_SWAP_TOPIC : H256 :=
  [0xd7, 0x8a, 0xd9, 0x5f, 0xa4, 0x6c, 0x99, 0x4b, 0x65, 0x51, 0xd0, 0xda, 0x85, 0xfc, 0x27, 0x5f,
   0xe6, 0x13, 0xce, 0x37, 0x65, 0x7f, 0xb8, 0xd5, 0xe3, 0xd1, 0x30, 0x84, 0x01, 0x59, 0xd8, 0x22]

/-- `UNISWAP_V3_SWAP_TOPIC` from `types.rs` lines 16-19, byte for byte. -/
def UNISWAP_V3_SWAP_TOPIC : H256 :=
  [0xc4, 0x20, 0x79, 0xf9, 0x4a, 0x63, 0x50, 0xd7, 0xe6, 0x23, 0x5f, 0x29, 0x17, 0x49, 0x24, 0xf9,
   0x28, 0xcc, 0x2a, 0xc8, 0x18, 0xeb, 0x64, 0xfe, 0xd8, 0x00, 0x4e, 0x11, 0x5f, 0xbc, 0xca, 0x67]

/-- `enum Protocol` from `types.rs`. -/
inductive Protocol
  | uniSwapV2
  | uniSwapV3
deriving DecidableEq

/-- `struct Token` from `types.rs`: address plus decimal precision (`u8`). -/
structure Token where
  token_address : Address
  decimals : Nat
deriving DecidableEq

/-- `Token::new` from `types.rs`. -/
def Token.new (token_address : Address) (decimals : Nat) : Token :=
  { token_address := token_address, decimals := decimals }

/-- `enum PoolExtra` from `types.rs` (fees are `u64` in the source). -/
inductive PoolExtra
  | none
  | uniSwapV2 (fee : Nat)
  | uniSwapV3 (fee : Nat)
deriving DecidableEq

/-- `struct Pool` from `types.rs`.  Lean's structural `=` plays the role of
byte-identical content; the source's custom `PartialEq` is `Pool.eq` below. -/
structure Pool where
  protocol : Protocol
  pool : Address
  tokens : List Token
  extra : PoolExtra
deriving DecidableEq

/-- `impl PartialEq for Pool` from `types.rs` lines 31-35: compares only the
`pool` address field. -/
def Pool.eq (a b : Pool) : Bool := a.pool == b.pool

/-- Error taxonomy for decode paths.  `panicOutOfBounds` models a Rust panic
(process abort from unchecked indexing/slicing), deliberately kept distinct
from every *returned* error such as `malformedLog`. -/
inductive DecodeErr
  | malformedLog
  | panicOutOfBounds
  | unexpectedEventSignature
  | unsupportedProtocol
deriving DecidableEq

/-- `Protocol::try_from_event_topic` from `types.rs` lines 184-194, arm by arm.
In the source BOTH match arms test the scrutinee against
`UNISWAP_V2_SWAP_TOPIC`: the second arm (the one producing `UniSwapV3`)
repeats the V2 constant, so with first-match-wins semantics it is unreachable
and every topic other than the V2 constant falls through to `bail!`. -/
def Protocol.tryFromEventTopic (topic : H256) : Except DecodeErr Protocol :=
  if topic = UNISWAP_V2_SWAP_TOPIC then .ok .uniSwapV2
  else if topic = UNISWAP_V2_SWAP_TOPIC then .ok .uniSwapV3
  else .error .unsupportedProtocol

/-- An EVM event log as the decoders consume it: emitting contract, topics,
ABI-encoded data bytes (the block number is never read by the decoders). -/
structure Log where
  address : Address
  topics : List H256
  data : List Nat
deriving DecidableEq

/-- Rust `xs[i]` on a `Vec`/slice: out of bounds is a panic, modelled as the
dedicated `panicOutOfBounds` outcome. -/
def idx {α : Type} (xs : List α) (i : Nat) : Except DecodeErr α :=
  match xs[i]? with
  | some x => .ok x
  | Option.none => .error .panicOutOfBounds

/-- Rust slice expression `xs[lo..hi]`: panics when the range exceeds the
slice, otherwise yields the `hi - lo` elements starting at `lo`. -/
def slice {α : Type} (xs : List α) (lo hi : Nat) : Except DecodeErr (List α) :=
  if lo ≤ hi ∧ hi ≤ xs.length then .ok ((xs.take hi).drop lo)
  else .error .panicOutOfBounds

/-- `Address::from(h: H256)` (ethereum-types): the low 20 bytes, i.e. bytes
12..32 of the 32-byte word. -/
def h256ToAddress (t : H256) : Address := (t.take 32).drop 12

/-- `U256::from_big_endian` on a short byte slice: big-endian base-256 value. -/
def beBytesToNat (bs : List Nat) : Nat := bs.foldl (fun acc b => acc * 256 + b) 0

/-- `struct UniswapV2PairCreated` from `protocols/uniswapv2.rs`. -/
structure UniswapV2PairCreated where
  pair : Address
  token0 : Address
  token1 : Address
deriving DecidableEq

/-- `impl TryFrom<&Log> for UniswapV2PairCreated` (uniswapv2.rs lines 43-57):
reads `topics[1]`, `topics[2]` and `data[12..32]` with *no* length checks, so a
short log panics.  (The source names its parameter `value` but its body reads
`log`; the only `Log` in scope is the argument, modelled as such.) -/
def UniswapV2PairCreated.tryFromLog (log : Log) : Except DecodeErr UniswapV2PairCreated :=
  (idx log.topics 1).bind fun t1 =>
  (idx log.topics 2).bind fun t2 =>
  (slice log.data 12 32).bind fun pairBytes =>
  .ok { pair := pairBytes, token0 := h256ToAddress t1, token1 := h256ToAddress t2 }

/-- `struct UniswapV3PoolCreated` from `protocols/uniswapv3.rs` (the source
declares `fee: u32` yet assigns it the `U256` produced by `from_big_endian`;
the value always fits 24 bits, modelled as `Nat`). -/
structure UniswapV3PoolCreated where
  pool : Address
  token0 : Address
  token1 : Address
  fee : Nat
deriving DecidableEq

/-- `impl TryFrom<&Log> for UniswapV3PoolCreated` (uniswapv3.rs lines 44-60):
reads `topics[1]`, `topics[2]`, `topics[3].as_bytes()[29..32]` and
`data[44..64]` with *no* length checks, so a short log panics. -/
def UniswapV3PoolCreated.tryFromLog (log : Log) : Except DecodeErr UniswapV3PoolCreated :=
  (idx log.topics 1).bind fun t1 =>
  (idx log.topics 2).bind fun t2 =>
  (idx log.topics 3).bind fun t3 =>
  (slice t3 29 32).bind fun feeBytes =>
  (slice log.data 44 64).bind fun poolBytes =>
  .ok { pool := poolBytes, token0 := h256ToAddress t1, token1 := h256ToAddress t2,
        fee := beBytesToNat feeBytes }

/-- `I256::into_raw` (signed 256-bit to its unsigned two's-complement bit
pattern): reduction modulo `2^256`, non-negative by construction. -/
def i256Raw (x : Int) : Nat := (x % ((2 : Int) ^ 256)).toNat

/-- `struct UniswapV3SwapEvent` from `protocols/uniswapv3.rs` (the source
stores the normalized amounts as `U256`, modelled as `Nat`). -/
structure UniswapV3SwapEvent where
  pool : Address
  token0 : Address
  token1 : Address
  amount0 : Nat
  amount1 : Nat
  liquidity : Nat
deriving DecidableEq

/-- `UniswapV3SwapEvent::try_from_log` (uniswapv3.rs lines 93-136).
`token0Addr`/`token1Addr` stand for the results of the `token0()`/`token1()`
contract reads against `log.address`; `amount0`/`amount1`/`liquidity` stand
for the corresponding fields of the ABI-decoded `SwapFilter` log (signed
`I256` amounts as `Int`).  The sign normalization is modelled branch by
branch; note the source assigns `token_0 = token0_address` and
`token_1 = token1_address` in BOTH branches — only the amount expressions
differ between the branches. -/
def UniswapV3SwapEvent.tryFromLog (log : Log) (token0Addr token1Addr : Address)
    (amount0 amount1 : Int) (liquidity : Nat) : Except DecodeErr UniswapV3SwapEvent :=
  if log.topics.head? = some UNISWAP_V3_SWAP_TOPIC then
    if amount0 > 0 then
      .ok { pool := log.address, token0 := token0Addr, token1 := token1Addr,
            amount0 := i256Raw amount0, amount1 := i256Raw (-amount1),
            liquidity := liquidity }
    else
      .ok { pool := log.address, token0 := token0Addr, token1 := token1Addr,
            amount0 := i256Raw (-amount0), amount1 := i256Raw amount1,
            liquidity := liquidity }
  else .error .unexpectedEventSignature

/-- A log with no topics and no data, used to exercise the short-log paths. -/
def emptyLog : Log := { address := List.replicate 20 0, topics := [], data := [] }

/-- Fixture addresses for the swap-decoding evaluations. -/
def tokenA : Address := List.replicate 20 0xaa

def tokenB : Address := List.replicate 20 0xbb

/-- A log whose only topic is the UniswapV3 swap signature. -/
def sampleV3SwapLog : Log :=
  { address := List.replicate 20 0x11, topics := [UNISWAP_V3_SWAP_TOPIC], data := [] }

/-- The all-zero address (`Address::is_zero()` holds exactly of this value for
a 20-byte address). -/
def ZERO_ADDRESS : Address := List.replicate 20 0

/-- `WETH_ADDRESS` from `protocols/mod.rs`:
`0xC02aaA39b223FE8D0A0e5C4F27eAD9083C756Cc2`, byte for byte. -/
def WETH_ADDRESS : Address :=
  [0xC0, 0x2a, 0xaA, 0x39, 0xb2, 0x23, 0xFE, 0x8D, 0x0A, 0x0e,
   0x5C, 0x4F, 0x27, 0xeA, 0xD9, 0x08, 0x3C, 0x75, 0x6C, 0xc2]

/-- Network/contract-call failure: the source wraps the token address and the
underlying cause (`eyre!("Failed to fetch decimals for token {}: {}", ...)`). -/
inductive RpcErr
  | rpcError (addr : Address) (cause : String)
deriving DecidableEq

/-- `get_coin_decimals` from `protocols/mod.rs` lines 19-39.  `oracle` models
the `Erc20::decimals()` contract read against the given address (the external
contract-call collaborator).  The returned pair carries the result together
with the number of `decimals()` network reads issued by this call, so that
"without issuing any network call" / "exactly one read" are statable.  The
`#[cached]` wrapper around the source function memoizes across calls at
runtime; this models a single (uncached) invocation's body. -/
def getCoinDecimals (oracle : Address → Except String Nat) (coin_address : Address) :
    Except RpcErr Nat × Nat :=
  if coin_address = ZERO_ADDRESS ∨ coin_address = WETH_ADDRESS then (.ok 18, 0)
  else
    match oracle coin_address with
    | .ok decimals => (.ok decimals, 1)
    | .error e => (.error (.rpcError coin_address e), 1)

/-- `UniswapV2PairCreated::to_pool` (uniswapv2.rs lines 59-78): resolves both
token decimals, then builds the pool with `protocol: Protocol::UniSwapV2`,
`pool: self.pair` and the hard-coded `PoolExtra::UniSwapV2 { fee: 5 }`. -/
def UniswapV2PairCreated.toPool (oracle : Address → Except String Nat)
    (e : UniswapV2PairCreated) : Except RpcErr Pool :=
  ((getCoinDecimals oracle e.token0).1).bind fun token0_decimals =>
  ((getCoinDecimals oracle e.token1).1).bind fun token1_decimals =>
  .ok { protocol := .uniSwapV2,
        pool := e.pair,
        tokens := [Token.new e.token0 token0_decimals, Token.new e.token1 token1_decimals],
        extra := .uniSwapV2 5 }

/-- `UniswapV3PoolCreated::to_pool` (uniswapv3.rs lines 62-81): resolves both
token decimals, then builds the pool.  The source constructs
`protocol: Protocol::UniSwapV2` and `extra: PoolExtra::UniSwapV2 { fee: self.fee }`
— the V2 variants — and writes `pool: self.pair` although the struct's only
pool-address field is named `pool` (modelled as `e.pool`). -/
def UniswapV3PoolCreated.toPool (oracle : Address → Except String Nat)
    (e : UniswapV3PoolCreated) : Except RpcErr Pool :=
  ((getCoinDecimals oracle e.token0).1).bind fun token0_decimals =>
  ((getCoinDecimals oracle e.token1).1).bind fun token1_decimals =>
  .ok { protocol := .uniSwapV2,
        pool := e.pool,
        tokens := [Token.new e.token0 token0_decimals, Token.new e.token1 token1_decimals],
        extra := .uniSwapV2 e.fee }

/-- An oracle answering every `decimals()` read with 9. -/
def constOracle9 : Address → Except String Nat := fun _ => .ok 9

/-- A decoded UniswapV3 `PoolCreated` fixture event (fee tier 500). -/
def sampleV3Created : UniswapV3PoolCreated :=
  { pool := List.replicate 20 3, token0 := tokenA, token1 := tokenB, fee := 500 }

/-- A decoded UniswapV2 `PairCreated` fixture event. -/
def sampleV2Created : UniswapV2PairCreated :=
  { pair := List.replicate 20 4, token0 := tokenA, token1 := tokenB }

/-- The pool that `UniswapV2PairCreated::to_pool` produces from
`sampleV2Created` under `constOracle9`. -/
def sampleV2PoolOut : Pool :=
  { protocol := .uniSwapV2,
    pool := List.replicate 20 4,
    tokens := [Token.new tokenA 9, Token.new tokenB 9],
    extra := .uniSwapV2 5 }

/-- Fixture topic for `topics[1]` of a well-formed `PoolCreated` log. -/
def sampleT1 : H256 := List.replicate 32 1

/-- Fixture topic for `topics[2]` of a well-formed `PoolCreated` log. -/
def sampleT2 : H256 := List.replicate 32 2

/-- Fixture topic for `topics[3]`: a uint24 fee of 500 right-aligned in a
32-byte word. -/
def sampleT3 : H256 := List.replicate 29 0 ++ [0, 1, 0xf4]

/-- A well-formed UniswapV3 `PoolCreated` fixture log: 4 topics of 32 bytes
each, 64 data bytes. -/
def sampleV3CreationLog : Log :=
  { address := List.replicate 20 7,
    topics := [List.replicate 32 9, sampleT1, sampleT2, sampleT3],
    data := List.range 64 }

/-- The lowercase hex digit character for a value below 16. -/
def hexDigitChar (n : Nat) : Char :=
  if n < 10 then Char.ofNat ('0'.toNat + n) else Char.ofNat ('a'.toNat + (n - 10))

/-- One byte as two lowercase hex characters. -/
def byteToHex (b : Nat) : List Char := [hexDigitChar (b / 16 % 16), hexDigitChar (b % 16)]

/-- A byte list as lowercase hex characters. -/
def bytesToHex : List Nat → List Char
  | [] => []
  | b :: bs => byteToHex b ++ bytesToHex bs

/-- `Display` for an `Address` (`H160` from the fixed-hash crate), which is
what `write!("{}", self.pool)` in `impl Display for Pool` invokes: `0x`, the
first 2 bytes, the single character `…` (U+2026), then the last 2 bytes —
an *abbreviated* rendering, not the full 40-digit hex form. -/
def addressDisplay (a : Address) : List Char :=
  '0' :: 'x' :: bytesToHex (a.take 2) ++ '…' :: bytesToHex (a.drop 18)

/-- impl-serde serialization of an `Address` (used for the `token_address`
field inside `tokens_json`): a quoted full `0x`-prefixed lowercase hex
string. -/
def addressToJsonHex (a : Address) : List Char :=
  '"' :: '0' :: 'x' :: bytesToHex a ++ ['"']

/-- `impl fmt::Display for Protocol` from `types.rs`. -/
def Protocol.display : Protocol → List Char
  | .uniSwapV2 => "uniswapv2".data
  | .uniSwapV3 => "uniswapv3".data

/-- `serde_json::to_string` of one `Token`
(`\x7b"token_address":"0x…","decimals":N\x7d`, no whitespace). -/
def tokenToJson (t : Token) : List Char :=
  "\x7b\"token_address\":".data ++ addressToJsonHex t.token_address
    ++ ",\"decimals\":".data ++ (Nat.repr t.decimals).data ++ "\x7d".data

/-- Comma-join, as serde_json renders array elements. -/
def intercalateComma : List (List Char) → List Char
  | [] => []
  | [x] => x
  | x :: xs => x ++ ',' :: intercalateComma xs

/-- `serde_json::to_string` of `Vec<Token>`. -/
def tokensToJson (ts : List Token) : List Char :=
  '[' :: intercalateComma (ts.map tokenToJson) ++ [']']

/-- `serde_json::to_string` of `PoolExtra` (serde's default externally-tagged
enum encoding: the unit variant as a bare string, the struct variants as
one-key objects). -/
def poolExtraToJson : PoolExtra → List Char
  | .none => "\"None\"".data
  | .uniSwapV2 fee =>
      "\x7b\"UniSwapV2\":\x7b\"fee\":".data ++ (Nat.repr fee).data ++ "\x7d\x7d".data
  | .uniSwapV3 fee =>
      "\x7b\"UniSwapV3\":\x7b\"fee\":".data ++ (Nat.repr fee).data ++ "\x7d\x7d".data

/-- `impl fmt::Display for Pool` from `types.rs` lines 54-66:
`protocol|pool|tokens_json|extra_json`, where the pool address is rendered by
the `Display` of `Address` (the abbreviated form above). -/
def Pool.render (p : Pool) : String :=
  ⟨p.protocol.display ++ '|' :: addressDisplay p.pool
    ++ '|' :: tokensToJson p.tokens ++ '|' :: poolExtraToJson p.extra⟩

/-- Error taxonomy of `Pool::try_from(&str)`: the 4-part format check and the
four independent sub-parses. -/
inductive PoolParseErr
  | invalidFormat
  | unsupportedProtocolName
  | invalidAddress
  | invalidTokensJson
  | invalidExtraJson
deriving DecidableEq

/-- Rust's `str::split('|')`: splits into the (possibly empty) chunks between
occurrences of the separator. -/
def splitOnChar (c : Char) : List Char → List (List Char)
  | [] => [[]]
  | x :: xs =>
    let rest := splitOnChar c xs
    if x = c then [] :: rest
    else
      match rest with
      | [] => [[x]]
      | r :: rs => (x :: r) :: rs

/-- `impl TryFrom<&str> for Protocol` from `types.rs`. -/
def Protocol.tryFromStr (s : List Char) : Except PoolParseErr Protocol :=
  if s = "uniswapv2".data then .ok .uniSwapV2
  else if s = "uniswapv3".data then .ok .uniSwapV3
  else .error .unsupportedProtocolName

/-- Value of one hex digit character, if any. -/
def hexVal? (c : Char) : Option Nat :=
  if '0' ≤ c ∧ c ≤ '9' then some (c.toNat - '0'.toNat)
  else if 'a' ≤ c ∧ c ≤ 'f' then some (c.toNat - 'a'.toNat + 10)
  else if 'A' ≤ c ∧ c ≤ 'F' then some (c.toNat - 'A'.toNat + 10)
  else Option.none

/-- Hex characters to bytes; fails on a non-hex character or odd length. -/
def hexBytes? : List Char → Option (List Nat)
  | [] => some []
  | [_] => Option.none
  | c1 :: c2 :: rest => do
    let h ← hexVal? c1
    let l ← hexVal? c2
    let bs ← hexBytes? rest
    some ((h * 16 + l) :: bs)

/-- `FromStr` for an `Address` (fixed-hash), used by
`parts[1].parse::<Address>()`: an optional `0x` prefix followed by exactly 40
hex digits; anything else (in particular the abbreviated `Display` form with
its `…`) is rejected. -/
def addressFromStr (s : List Char) : Except PoolParseErr Address :=
  let t := if s.take 2 = ['0', 'x'] then s.drop 2 else s
  if t.length = 40 then
    match hexBytes? t with
    | some bs => .ok bs
    | Option.none => .error .invalidAddress
  else .error .invalidAddress

/-- Consume an exact character sequence. -/
def stripExact (pre s : List Char) : Option (List Char) :=
  if s.take pre.length = pre then some (s.drop pre.length) else Option.none

/-- Decimal value of a digit run. -/
def decimalVal (ds : List Char) : Nat :=
  ds.foldl (fun a c => a * 10 + (c.toNat - '0'.toNat)) 0

/-- Consume a non-empty run of decimal digits. -/
def parseDigits (s : List Char) : Option (Nat × List Char) :=
  match s.takeWhile Char.isDigit with
  | [] => Option.none
  | ds => some (decimalVal ds, s.dropWhile Char.isDigit)

/-- Parse one `Token` object of the canonical serde_json shape. -/
def parseTokenObj (s : List Char) : Option (Token × List Char) := do
  let s ← stripExact "\x7b\"token_address\":\"0x".data s
  let bs ← hexBytes? (s.take 40)
  let s ← stripExact "\",\"decimals\":".data (s.drop 40)
  let (d, s) ← parseDigits s
  let s ← stripExact "\x7d".data s
  some (⟨bs, d⟩, s)

/-- Parse a comma-separated non-empty sequence of `Token` objects. -/
def parseTokenList : Nat → List Char → Option (List Token × List Char)
  | 0, _ => Option.none
  | fuel + 1, s => do
    let (t, s) ← parseTokenObj s
    match s with
    | ',' :: rest => do
        let (ts, s) ← parseTokenList fuel rest
        some (t :: ts, s)
    | _ => some ([t], s)

/-- Models `serde_json::from_str::<Vec<Token>>` on the canonical grammar that
`serde_json::to_string` emits (no whitespace; the round-trip evaluation below
never reaches this parser with any other input, since parsing fails one field
earlier on the address). -/
def tokensFromJson (s : List Char) : Except PoolParseErr (List Token) :=
  match s with
  | ['[', ']'] => .ok []
  | '[' :: rest =>
    match parseTokenList rest.length rest with
    | some (ts, [']']) => .ok ts
    | _ => .error .invalidTokensJson
  | _ => .error .invalidTokensJson

/-- Models `serde_json::from_str::<PoolExtra>` on the canonical grammar. -/
def poolExtraFromJson (s : List Char) : Except PoolParseErr PoolExtra :=
  if s = "\"None\"".data then .ok .none
  else
    match stripExact "\x7b\"UniSwapV2\":\x7b\"fee\":".data s with
    | some rest =>
      match parseDigits rest with
      | some (fee, tail) =>
          if tail = "\x7d\x7d".data then .ok (.uniSwapV2 fee) else .error .invalidExtraJson
      | Option.none => .error .invalidExtraJson
    | Option.none =>
      match stripExact "\x7b\"UniSwapV3\":\x7b\"fee\":".data s with
      | some rest =>
        match parseDigits rest with
        | some (fee, tail) =>
            if tail = "\x7d\x7d".data then .ok (.uniSwapV3 fee) else .error .invalidExtraJson
        | Option.none => .error .invalidExtraJson
      | Option.none => .error .invalidExtraJson

/-- `impl TryFrom<&str> for Pool` from `types.rs` lines 68-87: split on `|`,
require exactly 4 parts, then parse protocol, pool address, tokens JSON and
extra JSON in that order, each failure propagating immediately. -/
def Pool.tryFromStr (s : String) : Except PoolParseErr Pool :=
  let parts := splitOnChar '|' s.data
  if parts.length = 4 then
    (Protocol.tryFromStr (parts.getD 0 [])).bind fun protocol =>
    (addressFromStr (parts.getD 1 [])).bind fun pool =>
    (tokensFromJson (parts.getD 2 [])).bind fun tokens =>
    (poolExtraFromJson (parts.getD 3 [])).bind fun extra =>
    .ok { protocol := protocol, pool := pool, tokens := tokens, extra := extra }
  else .error .invalidFormat

/-- A fully populated fixture pool (2 tokens, V2 extra). -/
def samplePool : Pool :=
  { protocol := .uniSwapV2,
    pool := WETH_ADDRESS,
    tokens := [Token.new tokenA 18, Token.new tokenB 6],
    extra := .uniSwapV2 5 }

end EthMev

namespace EthMev

/-- Claim C1, evaluation at the failing input: the dispatcher rejects the
UniswapV3 swap signature constant with `UnsupportedProtocol` instead of
returning `UniSwapV3` (both source match arms name the V2 constant), while it
does map the V2 constant to `UniSwapV2`. -/
theorem c1_v3_topic_rejected :
    Protocol.tryFromEventTopic UNISWAP_V3_SWAP_TOPIC = .error .unsupportedProtocol ∧
    Protocol.tryFromEventTopic UNISWAP_V3_SWAP_TOPIC ≠ .ok .uniSwapV3 ∧
    Protocol.tryFromEventTopic UNISWAP_V2_SWAP_TOPIC = .ok .uniSwapV2 := by
  decide

/-- Claim C6: `Pool` equality (the source's custom `PartialEq`) holds exactly
when the `pool` addresses agree, regardless of protocol, token list or extra
contents. -/
theorem c6_pool_eq_iff_same_address (p q : Pool) :
    Pool.eq p q = true ↔ p.pool = q.pool := by
  simp [Pool.eq]

/-- Claim C3, evaluation at the failing input: on a log with no topics and no
data both creation decoders hit unchecked indexing — a Rust panic — rather
than returning a `MalformedLog` error as the claim requires. -/
theorem c3_short_log_panics :
    UniswapV2PairCreated.tryFromLog emptyLog = .error .panicOutOfBounds ∧
    UniswapV3PoolCreated.tryFromLog emptyLog = .error .panicOutOfBounds ∧
    UniswapV2PairCreated.tryFromLog emptyLog ≠ .error .malformedLog ∧
    UniswapV3PoolCreated.tryFromLog emptyLog ≠ .error .malformedLog := by
  decide

/-- Claim C4, evaluation at the failing input: for `amount0 = +100`,
`amount1 = -250` the decoder emits the magnitudes 100 and 250 against the
pool's token0/token1, and the sign-reversed input `amount0 = -100`,
`amount1 = +250` produces the *identical* event value — the decoded result
never reports which token was the swap input, so reversing the signs does not
reverse any reported input/output roles. -/
theorem c4_sign_reversal_unreported :
    UniswapV3SwapEvent.tryFromLog sampleV3SwapLog tokenA tokenB 100 (-250) 7 =
      .ok { pool := sampleV3SwapLog.address, token0 := tokenA, token1 := tokenB,
            amount0 := 100, amount1 := 250, liquidity := 7 } ∧
    UniswapV3SwapEvent.tryFromLog sampleV3SwapLog tokenA tokenB (-100) 250 7 =
      UniswapV3SwapEvent.tryFromLog sampleV3SwapLog tokenA tokenB 100 (-250) 7 := by
  decide

/-- Claim C7: on any `PoolCreated` log with topics 1..3 present as 32-byte
words and at least 64 data bytes, the UniswapV3 creation decoder succeeds and
yields `token0`/`token1` as the low 20 bytes of `topics[1]`/`topics[2]`,
`fee` as the big-endian value of bytes 29..32 of `topics[3]`, and `pool` as
the low 20 bytes of the second data word, `data[44..64]`. -/
theorem c7_v3_creation_offsets (log : Log) (t1 t2 t3 : H256)
    (h1 : log.topics[1]? = some t1) (h2 : log.topics[2]? = some t2)
    (h3 : log.topics[3]? = some t3)
    (hl1 : t1.length = 32) (hl2 : t2.length = 32) (hl3 : t3.length = 32)
    (hd : 64 ≤ log.data.length) :
    UniswapV3PoolCreated.tryFromLog log =
      .ok { pool := (log.data.take 64).drop 44,
            token0 := t1.drop 12,
            token1 := t2.drop 12,
            fee := beBytesToNat (t3.drop 29) } := by
  have e1 : t1.take 32 = t1 := List.take_of_length_le (by omega)
  have e2 : t2.take 32 = t2 := List.take_of_length_le (by omega)
  have e3 : t3.take 32 = t3 := List.take_of_length_le (by omega)
  simp [UniswapV3PoolCreated.tryFromLog, idx, slice, h1, h2, h3, hl3, hd,
    Except.bind, h256ToAddress, e1, e2, e3]

/-- Witness for C7: the decoder evaluated on the concrete fixture log. -/
theorem c7_witness :
    UniswapV3PoolCreated.tryFromLog sampleV3CreationLog =
      .ok { pool := (List.range 64).drop 44,
            token0 := List.replicate 20 1,
            token1 := List.replicate 20 2,
            fee := 500 } := by
  have h := c7_v3_creation_offsets sampleV3CreationLog sampleT1 sampleT2 sampleT3
    (by decide) (by decide) (by decide) (by decide) (by decide) (by decide) (by decide)
  exact h.trans (by decide)

/-- Claim C2, evaluation at the failing input: `UniswapV3PoolCreated::to_pool`
on a successfully decoded V3 creation event builds the token list correctly
but tags the pool with `Protocol::UniSwapV2` and
`PoolExtra::UniSwapV2 { fee }` — the V2 variants, not the UniswapV3 variants
the claim requires. -/
theorem c2_v3_to_pool_wrong_variants :
    UniswapV3PoolCreated.toPool constOracle9 sampleV3Created =
      .ok { protocol := .uniSwapV2,
            pool := List.replicate 20 3,
            tokens := [Token.new tokenA 9, Token.new tokenB 9],
            extra := .uniSwapV2 500 } := by
  decide

/-- Claim C8: `get_coin_decimals` returns 18 with zero network reads for the
zero address and for `WETH_ADDRESS`; for every other address it issues
exactly one `decimals()` read, propagating the read value on success and
wrapping the address and the underlying cause in an `RpcError` on failure. -/
theorem c8_get_coin_decimals_spec (oracle : Address → Except String Nat) (a : Address) :
    ((a = ZERO_ADDRESS ∨ a = WETH_ADDRESS) → getCoinDecimals oracle a = (.ok 18, 0)) ∧
    (a ≠ ZERO_ADDRESS → a ≠ WETH_ADDRESS →
      (getCoinDecimals oracle a).2 = 1 ∧
      (∀ d, oracle a = .ok d → (getCoinDecimals oracle a).1 = .ok d) ∧
      (∀ c, oracle a = .error c →
        (getCoinDecimals oracle a).1 = .error (.rpcError a c))) := by
  constructor
  · intro h
    simp [getCoinDecimals, h]
  · intro h0 hw
    refine ⟨?_, ?_, ?_⟩
    · have hn : ¬(a = ZERO_ADDRESS ∨ a = WETH_ADDRESS) := by simp [h0, hw]
      simp only [getCoinDecimals, if_neg hn]
      cases oracle a <;> rfl
    · intro d hd
      simp [getCoinDecimals, h0, hw, hd]
    · intro c hc
      simp [getCoinDecimals, h0, hw, hc]

/-- Witness for C8: the zero-address fast path and an ordinary address, with
the hypotheses discharged at concrete inputs. -/
theorem c8_witness :
    getCoinDecimals constOracle9 ZERO_ADDRESS = (.ok 18, 0) ∧
    (getCoinDecimals constOracle9 tokenA).2 = 1 ∧
    (getCoinDecimals constOracle9 tokenA).1 = .ok 9 := by
  refine ⟨?_, ?_, ?_⟩
  · exact (c8_get_coin_decimals_spec constOracle9 ZERO_ADDRESS).1 (Or.inl rfl)
  · exact ((c8_get_coin_decimals_spec constOracle9 tokenA).2
      (by decide) (by decide)).1
  · exact (((c8_get_coin_decimals_spec constOracle9 tokenA).2
      (by decide) (by decide)).2.1 9 rfl)

/-- Claim C10: whenever `UniswapV2PairCreated::to_pool` succeeds, the
resulting pool's extra is the `UniSwapV2` variant with the hard-coded fee 5
(and its protocol is `UniSwapV2`), independent of the decoded event and of
the resolver's answers. -/
theorem c10_v2_fee_hardcoded (oracle : Address → Except String Nat)
    (e : UniswapV2PairCreated) (p : Pool)
    (h : UniswapV2PairCreated.toPool oracle e = .ok p) :
    p.extra = .uniSwapV2 5 ∧ p.protocol = .uniSwapV2 := by
  unfold UniswapV2PairCreated.toPool at h
  cases h0 : (getCoinDecimals oracle e.token0).1 with
  | error err => rw [h0] at h; simp [Except.bind] at h
  | ok d0 =>
    rw [h0] at h
    cases h1 : (getCoinDecimals oracle e.token1).1 with
    | error err => rw [h1] at h; simp [Except.bind] at h
    | ok d1 =>
      rw [h1] at h
      simp only [Except.bind, Except.ok.injEq] at h
      subst h
      exact ⟨rfl, rfl⟩

/-- Witness for C10: the theorem applied to the concrete fixture event, whose
`to_pool` run is evaluated explicitly. -/
theorem c10_witness :
    sampleV2PoolOut.extra = .uniSwapV2 5 ∧ sampleV2PoolOut.protocol = .uniSwapV2 :=
  c10_v2_fee_hardcoded constOracle9 sampleV2Created sampleV2PoolOut (by decide)

/-- Claim C5, evaluation at the failing input: the canonical text encoding of
a fully populated valid pool does NOT parse back — `Display` renders the pool
address in the abbreviated `0xc02a…6cc2` form (first 2 bytes, U+2026
ellipsis, last 2 bytes) while parsing demands a full 40-hex-digit address, so
`Pool::try_from(pool.to_string())` fails on the address field for every
pool rather than round-tripping. -/
theorem c5_roundtrip_fails :
    Pool.tryFromStr (Pool.render samplePool) = .error .invalidAddress := by
  decide

end EthMev
